import Mathlib

/-!
Formal model of the CSV/Excel ingestion and aggregation core of the customer
management system in `client_management_system.py`.

The Python code is shallowly embedded: row cells become an inductive `Value`
type, Python floats are modelled exactly as rationals extended with the
special values `inf`, `-inf` and `nan` (binary rounding and signed zeros are
not modelled; arithmetic on finite values is exact), Python `str` fields are
Lean `String`s, and the mutable application state (customer directory, order
ledger, id counters) is threaded explicitly through the operations.
Python string helpers (`strip`, `lower`, splitting) are re-implemented on
character lists; they cover the ASCII behaviour the program relies on.
-/

/-- Model of a Python `float` value: an exact rational, an infinity, or NaN.
Finite arithmetic is exact (no binary rounding); this is the only deliberate
simplification relative to IEEE doubles. -/
inductive PyFloat where
  | finite (q : ℚ)
  | inf
  | neginf
  | nan
deriving DecidableEq, Repr

namespace PyFloat

/-- Negation of a Python float. -/
def neg : PyFloat → PyFloat
  | finite q => finite (-q)
  | inf => neginf
  | neginf => inf
  | nan => nan

/-- Addition of Python floats (`+` on floats); `inf + -inf = nan`. -/
def add : PyFloat → PyFloat → PyFloat
  | nan, _ => nan
  | _, nan => nan
  | finite a, finite b => finite (a + b)
  | inf, neginf => nan
  | neginf, inf => nan
  | inf, _ => inf
  | _, inf => inf
  | neginf, _ => neginf
  | _, neginf => neginf

/-- Subtraction of Python floats. -/
def sub (a b : PyFloat) : PyFloat := add a (neg b)

/-- Multiplication of Python floats; `inf * 0 = nan`, sign rules otherwise. -/
def mul : PyFloat → PyFloat → PyFloat
  | nan, _ => nan
  | _, nan => nan
  | finite a, finite b => finite (a * b)
  | inf, inf => inf
  | inf, neginf => neginf
  | neginf, inf => neginf
  | neginf, neginf => inf
  | inf, finite b => if b = 0 then nan else if 0 < b then inf else neginf
  | finite a, inf => if a = 0 then nan else if 0 < a then inf else neginf
  | neginf, finite b => if b = 0 then nan else if 0 < b then neginf else inf
  | finite a, neginf => if a = 0 then nan else if 0 < a then neginf else inf

/-- Division of Python floats.  Division by zero raises in Python; no call
site of the program divides by zero, so that case is mapped to `nan`. -/
def div : PyFloat → PyFloat → PyFloat
  | nan, _ => nan
  | _, nan => nan
  | finite a, finite b => if b = 0 then nan else finite (a / b)
  | inf, finite b => if b = 0 then nan else if 0 ≤ b then inf else neginf
  | neginf, finite b => if b = 0 then nan else if 0 ≤ b then neginf else inf
  | finite _, inf => finite 0
  | finite _, neginf => finite 0
  | inf, inf => nan
  | inf, neginf => nan
  | neginf, inf => nan
  | neginf, neginf => nan

/-- Sum of a list of Python floats, as Python `sum` (initial value `0`). -/
def sum (l : List PyFloat) : PyFloat := l.foldl add (finite 0)

end PyFloat

/-- Model of a raw cell value as delivered by pandas: missing/null (`None` or
NaN cell), a string, an integer, a float, or a date/datetime value (kept as a
calendar day; the program only ever formats it as `YYYY-MM-DD`). -/
inductive Value where
  | none
  | str (s : String)
  | int (n : Int)
  | float (f : PyFloat)
  | date (y m d : Nat)
deriving DecidableEq, Repr

/-- Model of `pd.isna`: true on `None` and on float NaN. -/
def pyIsNa : Value → Bool
  | Value.none => true
  | Value.float PyFloat.nan => true
  | _ => false

/-- Python truthiness of a cell value (`bool(v)`): empty string, zero numbers
and `None` are falsy; NaN and date values are truthy. -/
def pyTruthy : Value → Bool
  | Value.none => false
  | Value.str s => s ≠ ""
  | Value.int n => n ≠ 0
  | Value.float (PyFloat.finite q) => q ≠ 0
  | Value.float _ => true
  | Value.date _ _ _ => true

/-- Left-pad the decimal form of a number with zeros to the given width. -/
def padNum (width n : Nat) : String :=
  let s := toString n
  String.mk (List.replicate (width - s.length) '0') ++ s

/-- A calendar date (year, month, day). -/
structure Date where
  y : Nat
  m : Nat
  d : Nat
deriving DecidableEq, Repr

/-- Python `strftime("%Y-%m-%d")` on a date. -/
def fmtDate (dt : Date) : String :=
  padNum 4 dt.y ++ "-" ++ padNum 2 dt.m ++ "-" ++ padNum 2 dt.d

/-- Numeric value of a list of decimal digit characters. -/
def natOfDigits (cs : List Char) : Nat :=
  cs.foldl (fun a c => a * 10 + (c.toNat - 48)) 0

/-- Python `str.strip()` (ASCII whitespace). -/
def pyStrip (s : String) : String :=
  String.mk (((s.toList.dropWhile Char.isWhitespace).reverse.dropWhile
    Char.isWhitespace).reverse)

/-- Python `str.lower()` (ASCII case folding). -/
def pyLower (s : String) : String :=
  String.mk (s.toList.map Char.toLower)

/-- Python `str(value)`.  The decimal form of a non-integral float is
simplified to the rational literal form; the program never feeds such a
value back into parsing. -/
def pyStr : Value → String
  | Value.none => "None"
  | Value.str s => s
  | Value.int n => toString n
  | Value.float (PyFloat.finite q) =>
      if q.den = 1 then toString q.num ++ ".0" else toString q
  | Value.float PyFloat.inf => "inf"
  | Value.float PyFloat.neginf => "-inf"
  | Value.float PyFloat.nan => "nan"
  | Value.date y m d => fmtDate ⟨y, m, d⟩

/-- Split a character list on every occurrence of the separator. -/
def splitAllChar (sep : Char) : List Char → List (List Char)
  | [] => [[]]
  | c :: rest =>
    match splitAllChar sep rest with
    | [] => [[c]]
    | p :: ps => if c = sep then [] :: p :: ps else (c :: p) :: ps

/-- Consume an optional leading sign; returns (negative?, rest). -/
def parseSign : List Char → Bool × List Char
  | '+' :: r => (false, r)
  | '-' :: r => (true, r)
  | r => (false, r)

/-- Mantissa of a decimal literal: `digits`, `digits.digits`, `.digits` or
`digits.` with at least one digit overall. -/
def parseMantissa (cs : List Char) : Option ℚ :=
  match splitAllChar '.' cs with
  | [ip] =>
    if ip ≠ [] ∧ ip.all Char.isDigit then some (natOfDigits ip) else none
  | [ip, fp] =>
    if (ip ≠ [] ∨ fp ≠ []) ∧ ip.all Char.isDigit ∧ fp.all Char.isDigit then
      some ((natOfDigits ip : ℚ) + (natOfDigits fp : ℚ) / (10 : ℚ) ^ fp.length)
    else none
  | _ => none

/-- Exponent part of a decimal literal: optional sign then nonempty digits. -/
def parseExponent (cs : List Char) : Option Int :=
  let (neg, ds) := parseSign cs
  if ds ≠ [] ∧ ds.all Char.isDigit then
    some (if neg then -(natOfDigits ds : Int) else (natOfDigits ds : Int))
  else none

/-- Model of Python `float(s)` on a string: strips whitespace, accepts an
optional sign, the keywords `inf`, `infinity` and `nan` (any case), and
decimal literals with an optional fraction and exponent.  Unicode digits and
digit-group underscores are not modelled; the program never relies on them.
Returns `Option.none` where Python raises `ValueError`. -/
def pyFloatOfString (s : String) : Option PyFloat :=
  let t := pyLower (pyStrip s)
  let (neg, cs) := parseSign t.toList
  if cs = "inf".toList ∨ cs = "infinity".toList then
    some (if neg then PyFloat.neginf else PyFloat.inf)
  else if cs = "nan".toList then some PyFloat.nan
  else
    match splitAllChar 'e' cs with
    | [m] => (parseMantissa m).map fun q =>
        PyFloat.finite (if neg then -q else q)
    | [m, e] => do
        let q ← parseMantissa m
        let ex ← parseExponent e
        pure (PyFloat.finite (let v := q * (10 : ℚ) ^ ex; if neg then -v else v))
    | _ => Option.none

/-- Model of Python `float(value)` on an arbitrary cell value.  `Option.none`
models a raised `ValueError`/`TypeError` (non-numeric string, `None`, or a
date value). -/
def pyFloatOf : Value → Option PyFloat
  | Value.str s => pyFloatOfString s
  | Value.int n => some (PyFloat.finite n)
  | Value.float f => some f
  | Value.date _ _ _ => Option.none
  | Value.none => Option.none

/-- Truncation of a rational toward zero, as Python `int(float)` on a finite
float. -/
def ratTrunc (q : ℚ) : Int := if 0 ≤ q then ⌊q⌋ else -⌊-q⌋

/-- Leap year rule of the Gregorian calendar (as `datetime`). -/
def isLeap (y : Nat) : Bool := y % 4 = 0 ∧ (y % 100 ≠ 0 ∨ y % 400 = 0)

/-- Days in a month, as validated by `datetime.date`. -/
def daysInMonth (y m : Nat) : Nat :=
  if m = 2 then (if isLeap y then 29 else 28)
  else if m = 4 ∨ m = 6 ∨ m = 9 ∨ m = 11 then 30
  else 31

/-- Field order of a date format string: `%Y-%m-%d` is `ymd`, etc. -/
inductive DOrder where
  | ymd
  | dmy
  | mdy
deriving DecidableEq, Repr

/-- One `strptime` format of the shape used by the program: three numeric
fields joined by a single separator character. -/
structure DateFmt where
  ord : DOrder
  sep : Char
deriving DecidableEq, Repr

/-- A 1-2 digit field, as the `strptime` patterns for `%d` and `%m`. -/
def parse2 (cs : List Char) : Option Nat :=
  if (cs.length = 1 ∨ cs.length = 2) ∧ cs.all Char.isDigit then
    some (natOfDigits cs)
  else none

/-- A 4 digit field, as the `strptime` pattern for `%Y`. -/
def parse4 (cs : List Char) : Option Nat :=
  if cs.length = 4 ∧ cs.all Char.isDigit then some (natOfDigits cs) else none

/-- Model of `datetime.strptime(s, fmt)` for the formats the program uses,
including the calendar validation `datetime` performs (month 1-12, day within
the month, year at least 1).  `Option.none` models a raised `ValueError`. -/
def tryParseDate (fmt : DateFmt) (s : String) : Option Date :=
  match splitAllChar fmt.sep s.toList with
  | [a, b, c] =>
    let comps : Option (Nat × Nat × Nat) :=
      match fmt.ord with
      | DOrder.ymd => do pure (← parse4 a, ← parse2 b, ← parse2 c)
      | DOrder.dmy => do pure (← parse4 c, ← parse2 b, ← parse2 a)
      | DOrder.mdy => do pure (← parse4 c, ← parse2 a, ← parse2 b)
    match comps with
    | some (y, m, d) =>
      if 1 ≤ y ∧ 1 ≤ m ∧ m ≤ 12 ∧ 1 ≤ d ∧ d ≤ daysInMonth y m then
        some ⟨y, m, d⟩
      else none
    | Option.none => none
  | _ => none

/-- A tabular row: association list from column header to raw cell value.
A header present with a NaN cell is modelled as the pair being present with
`Value.none`. -/
def Row : Type := List (String × Value)

/-- Model of pandas `row.get(key, default)`: the stored value when the column
is present (even if null), otherwise the default. -/
def rowGet (row : Row) (key : String) (dflt : Value) : Value :=
  match (List.find? (fun p => p.1 == key) row) with
  | some p => p.2
  | Option.none => dflt

/-- A customer record as stored in `self.customers`.  String-typed fields
hold the `str()` form of whatever cell produced them. -/
structure Customer where
  id : Nat
  full_name : String
  email : String
  phone : String
  registration_date : String
  notes : String
  total_orders : Nat
  total_spent : PyFloat
deriving DecidableEq, Repr

/-- An order record as stored in `self.orders`. -/
structure Order where
  id : String
  customer_id : Nat
  customer_name : String
  date : String
  book_title : String
  author : String
  genre : String
  quantity : Int
  price : PyFloat
  discount : PyFloat
  final_price : PyFloat
  total_amount : PyFloat
  status : String
  delivery_method : String
  order_notes : String
deriving DecidableEq, Repr

/-- The mutable application state: directory, ledger and the id counters
(`setup_database` initialises all four). -/
structure AppState where
  customers : List Customer
  orders : List Order
  next_customer_id : Nat
  next_order_id : Nat
deriving DecidableEq, Repr

/-- The state right after `setup_database`. -/
def initialState : AppState :=
  { customers := [], orders := [], next_customer_id := 1, next_order_id := 1 }

/-- The fields a `CustomerDialog` returns for an explicit add/edit. -/
structure CustomerInput where
  full_name : String
  email : String
  phone : String
  registration_date : String
  notes : String
deriving DecidableEq, Repr

namespace CustomerManagementSystem

/-- Python `clean_string`: empty string on a null value, otherwise the
trimmed string form. -/
def clean_string (v : Value) : String :=
  if pyIsNa v then "" else pyStrip (pyStr v)

/-- The `date_formats` list of `CustomerManagementSystem.parse_date`. -/
def csvDateFormats : List DateFmt :=
  [⟨DOrder.ymd, '-'⟩, ⟨DOrder.dmy, '.'⟩, ⟨DOrder.mdy, '/'⟩,
   ⟨DOrder.dmy, '-'⟩, ⟨DOrder.ymd, '/'⟩]

/-- Python `parse_date` (CSV path): today on a null value, else the first
format of `csvDateFormats` that parses the trimmed string form wins; if none
does, today is used. -/
def parse_date (v : Value) (today : Date) : String :=
  if pyIsNa v then fmtDate today
  else
    let value_str := pyStrip (pyStr v)
    match csvDateFormats.findSome? (fun f => tryParseDate f value_str) with
    | some dt => fmtDate dt
    | Option.none => fmtDate today

/-- Python `parse_int`: 1 on a null value; otherwise `int(float(value))`
where a `ValueError`/`TypeError` from the conversion is caught (yielding 1)
but the `OverflowError` raised by `int()` on an infinite float is not:
`Except.error ()` models that uncaught exception. -/
def parse_int (v : Value) : Except Unit Int :=
  if pyIsNa v then Except.ok 1
  else
    match pyFloatOf v with
    | Option.none => Except.ok 1
    | some (PyFloat.finite q) => Except.ok (ratTrunc q)
    | some PyFloat.nan => Except.ok 1
    | some PyFloat.inf => Except.error ()
    | some PyFloat.neginf => Except.error ()

/-- Python `parse_float`: 0.0 on a null value or a failed conversion,
otherwise `float(value)`. -/
def parse_float (v : Value) : PyFloat :=
  if pyIsNa v then PyFloat.finite 0
  else
    match pyFloatOf v with
    | Option.none => PyFloat.finite 0
    | some f => f

/-- Python `find_customer_by_name` (CSV path): case-insensitive exact match
on the cleaned name, first hit wins. -/
def find_customer_by_name (customers : List Customer) (name : String) :
    Option Customer :=
  let clean_name := pyLower (pyStrip name)
  customers.find? (fun c => pyLower c.full_name == clean_name)

/-- Python `find_customer_by_id`: linear scan. -/
def find_customer_by_id (customers : List Customer) (cid : Nat) :
    Option Customer :=
  customers.find? (fun c => c.id == cid)

/-- One row of `load_customers_from_csv`: builds the record and keeps it only
when the cleaned full name is nonempty; threads the per-load id counter. -/
def csvCustomerOfRow (today : Date) (row : Row) (nextId : Nat) :
    Option Customer :=
  let customer : Customer :=
    { id := nextId
      full_name := clean_string (rowGet row "ФИО" (rowGet row "full_name" (Value.str "")))
      email := clean_string (rowGet row "Email" (rowGet row "email" (Value.str "")))
      phone := clean_string (rowGet row "Телефон" (rowGet row "phone" (Value.str "")))
      registration_date := parse_date
        (rowGet row "Дата регистрации"
          (rowGet row "registration_date" (Value.date today.y today.m today.d))) today
      notes := clean_string (rowGet row "Примечания" (rowGet row "notes" (Value.str "")))
      total_orders := 0
      total_spent := PyFloat.finite 0 }
  if customer.full_name ≠ "" then some customer else Option.none

/-- Loop body of `load_customers_from_csv` over the remaining rows. -/
def loadCustomersAux (today : Date) : List Row → List Customer → Nat →
    List Customer × Nat
  | [], acc, nextId => (acc, nextId)
  | row :: rest, acc, nextId =>
    match csvCustomerOfRow today row nextId with
    | some c => loadCustomersAux today rest (acc ++ [c]) (nextId + 1)
    | Option.none => loadCustomersAux today rest acc nextId

/-- Python `load_customers_from_csv`: resets the directory and the customer
id counter, then appends one customer per row with a nonempty cleaned name. -/
def load_customers_from_csv (today : Date) (rows : List Row) (st : AppState) :
    AppState :=
  let (cs, nextId) := loadCustomersAux today rows [] 1
  { st with customers := cs, next_customer_id := nextId }

/-- One row of `load_orders_from_csv`: resolve the customer by name, build
the order.  Derived price fields are read from the source columns
(`Итоговая_цена`, `Общая_сумма`), not recomputed.  `Except.error ()` models
the uncaught `OverflowError` that `parse_int` can raise. -/
def csvOrderOfRow (today : Date) (customers : List Customer) (row : Row)
    (nextOrderId : Nat) : Except Unit (Option Order) := do
  let customer_name := clean_string
    (rowGet row "ФИО_клиента" (rowGet row "client_name" (Value.str "")))
  match find_customer_by_name customers customer_name with
  | Option.none => pure Option.none
  | some customer =>
    let quantity ← parse_int (rowGet row "Количество" (rowGet row "quantity" (Value.int 1)))
    pure (some
      { id := clean_string (rowGet row "ID_заказа"
          (rowGet row "order_id" (Value.str ("ORD" ++ padNum 3 nextOrderId))))
        customer_id := customer.id
        customer_name := customer_name
        date := parse_date (rowGet row "Дата_заказа"
          (rowGet row "order_date" (Value.date today.y today.m today.d))) today
        book_title := clean_string (rowGet row "Название_книги"
          (rowGet row "product_name" (Value.str "")))
        author := clean_string (rowGet row "Автор" (Value.str ""))
        genre := clean_string (rowGet row "Жанр" (Value.str ""))
        quantity := quantity
        price := parse_float (rowGet row "Цена_за_шт" (rowGet row "price" (Value.int 0)))
        discount := parse_float (rowGet row "Скидка_%" (rowGet row "discount" (Value.int 0)))
        final_price := parse_float (rowGet row "Итоговая_цена"
          (rowGet row "final_price" (Value.int 0)))
        total_amount := parse_float (rowGet row "Общая_сумма"
          (rowGet row "total_amount" (Value.int 0)))
        status := clean_string (rowGet row "Статус_заказа"
          (rowGet row "status" (Value.str "Ожидает оплаты")))
        delivery_method := clean_string (rowGet row "Способ_доставки"
          (rowGet row "delivery_method" (Value.str "")))
        order_notes := clean_string (rowGet row "Примечание_к_заказу"
          (rowGet row "notes" (Value.str ""))) })

/-- Loop body of `load_orders_from_csv` over the remaining rows. -/
def loadOrdersAux (today : Date) (customers : List Customer) :
    List Row → List Order → Nat → Except Unit (List Order × Nat)
  | [], acc, nextId => pure (acc, nextId)
  | row :: rest, acc, nextId => do
    match ← csvOrderOfRow today customers row nextId with
    | some o => loadOrdersAux today customers rest (acc ++ [o]) (nextId + 1)
    | Option.none => loadOrdersAux today customers rest acc nextId

/-- Python `load_orders_from_csv`: resets the ledger and the order id
counter, appends one order per row whose customer resolves; rows with an
unresolved customer are skipped with a warning. -/
def load_orders_from_csv (today : Date) (rows : List Row) (st : AppState) :
    Except Unit AppState := do
  let (os, nextId) ← loadOrdersAux today st.customers rows [] 1
  pure { st with orders := os, next_order_id := nextId }

/-- Python `add_customer` (confirmed dialog): assigns the next customer id,
increments the counter, appends. -/
def add_customer (input : CustomerInput) (st : AppState) : AppState :=
  let c : Customer :=
    { id := st.next_customer_id
      full_name := input.full_name
      email := input.email
      phone := input.phone
      registration_date := input.registration_date
      notes := input.notes
      total_orders := 0
      total_spent := PyFloat.finite 0 }
  { st with customers := st.customers ++ [c],
            next_customer_id := st.next_customer_id + 1 }

/-- Python `delete_customer` (user confirmed): when the id resolves, removes
every customer with that id and every order referencing it in one step. -/
def delete_customer (cid : Nat) (st : AppState) : AppState :=
  if (find_customer_by_id st.customers cid).isSome then
    { st with customers := st.customers.filter (fun c => c.id != cid),
              orders := st.orders.filter (fun o => o.customer_id != cid) }
  else st

end CustomerManagementSystem

namespace ExcelDataImporter

/-- The `date_formats` list of `ExcelDataImporter._parse_date`; note that
`%d/%m/%Y` comes before `%m/%d/%Y`. -/
def excelDateFormats : List DateFmt :=
  [⟨DOrder.ymd, '-'⟩, ⟨DOrder.dmy, '.'⟩, ⟨DOrder.dmy, '/'⟩, ⟨DOrder.mdy, '/'⟩,
   ⟨DOrder.ymd, '.'⟩, ⟨DOrder.dmy, '-'⟩, ⟨DOrder.ymd, '/'⟩]

/-- Python `_parse_date` (Excel path): today on a null value; a datetime
value is formatted directly; a string is tried against `excelDateFormats`
(first match wins); anything else, or no matching format, yields today. -/
def parse_date (v : Value) (today : Date) : String :=
  if pyIsNa v then fmtDate today
  else
    match v with
    | Value.date y m d => fmtDate ⟨y, m, d⟩
    | Value.str s =>
      match excelDateFormats.findSome? (fun f => tryParseDate f (pyStrip s)) with
      | some dt => fmtDate dt
      | Option.none => fmtDate today
    | _ => fmtDate today

/-- Python `_parse_int` (Excel path); same body as the CSV `parse_int`. -/
def parse_int (v : Value) : Except Unit Int :=
  if pyIsNa v then Except.ok 1
  else
    match pyFloatOf v with
    | Option.none => Except.ok 1
    | some (PyFloat.finite q) => Except.ok (ratTrunc q)
    | some PyFloat.nan => Except.ok 1
    | some PyFloat.inf => Except.error ()
    | some PyFloat.neginf => Except.error ()

/-- Python `_parse_float` (Excel path); same body as the CSV `parse_float`. -/
def parse_float (v : Value) : PyFloat :=
  if pyIsNa v then PyFloat.finite 0
  else
    match pyFloatOf v with
    | Option.none => PyFloat.finite 0
    | some f => f

/-- Python `_get_value_from_row`: first listed column that is present wins;
a present-but-null cell yields the default immediately. -/
def get_value_from_row (row : Row) (cols : List String) (dflt : Value) :
    Value :=
  match cols with
  | [] => dflt
  | c :: rest =>
    match List.find? (fun p => p.1 == c) row with
    | some p => if pyIsNa p.2 then dflt else p.2
    | Option.none => get_value_from_row row rest dflt

/-- Python `_find_customer_by_name` (Excel path): case-insensitive exact
match on the stripped name, then a case-insensitive substring fallback. -/
def find_customer_by_name (customers : List Customer) (name : String) :
    Option Customer :=
  let clean_name := pyLower (pyStrip name)
  match customers.find? (fun c => pyLower c.full_name == clean_name) with
  | some c => some c
  | Option.none =>
    customers.find? (fun c =>
      decide (List.IsInfix clean_name.toList (pyLower c.full_name).toList))

/-- Python `_create_new_customer`: auto-created customer for an order whose
named customer is unknown. -/
def create_new_customer (today : Date) (nextId : Nat) (customer_name : String) :
    Customer :=
  { id := nextId
    full_name := customer_name
    email := ""
    phone := ""
    registration_date := fmtDate today
    notes := "Создан автоматически при импорте заказов"
    total_orders := 0
    total_spent := PyFloat.finite 0 }

/-- Column aliases for the customer full name in `_process_customer_row`. -/
def customerNameCols : List String :=
  ["ФИО", "full_name", "Имя", "Клиент", "ФИО_клиента"]

/-- Python `_process_customer_row`: builds the record from the alias table
and rejects the row only when the resolved raw name value is falsy.  The
resolved value is not trimmed before the check; string fields store the
`str()` form of the raw cell. -/
def process_customer_row (today : Date) (row : Row) (customer_id : Nat) :
    Option Customer :=
  let nameVal := get_value_from_row row customerNameCols (Value.str "")
  let customer : Customer :=
    { id := customer_id
      full_name := pyStr nameVal
      email := pyStr (get_value_from_row row ["Email", "email", "Почта"] (Value.str ""))
      phone := pyStr (get_value_from_row row ["Телефон", "phone", "Мобильный"] (Value.str ""))
      registration_date := parse_date
        (get_value_from_row row ["Дата регистрации", "registration_date", "Дата"]
          (Value.date today.y today.m today.d)) today
      notes := pyStr (get_value_from_row row ["Примечания", "notes", "Комментарий"] (Value.str ""))
      total_orders := 0
      total_spent := PyFloat.finite 0 }
  if !(pyTruthy nameVal) then Option.none else some customer

/-- Order fields of `_process_order_row` built after the customer resolved;
`Except.error ()` is the uncaught-in-`_parse_int`, caught-by-the-row-handler
overflow case, which makes the row yield no order. -/
def buildExcelOrder (today : Date) (row : Row) (order_index : Nat)
    (customer : Customer) (customer_name : String) : Option Order :=
  match parse_int (get_value_from_row row ["Количество", "quantity", "Кол-во"] (Value.int 1)) with
  | Except.error _ => Option.none
  | Except.ok quantity =>
    let price := parse_float
      (get_value_from_row row ["Цена_за_шт", "price", "Цена"] (Value.int 0))
    let discount := parse_float
      (get_value_from_row row ["Скидка_%", "discount", "Скидка"] (Value.int 0))
    let final_price := PyFloat.mul price
      (PyFloat.sub (PyFloat.finite 1) (PyFloat.div discount (PyFloat.finite 100)))
    let total_amount := PyFloat.mul final_price (PyFloat.finite (quantity : ℚ))
    some
      { id := pyStr (get_value_from_row row ["ID_заказа", "order_id", "ID заказа"]
          (Value.str ("ORD" ++ padNum 5 order_index)))
        customer_id := customer.id
        customer_name := customer_name
        date := parse_date (get_value_from_row row ["Дата_заказа", "order_date", "Дата"]
          (Value.date today.y today.m today.d)) today
        book_title := pyStr (get_value_from_row row ["Название_книги", "book_title", "Книга"]
          (Value.str ""))
        author := pyStr (get_value_from_row row ["Автор", "author"] (Value.str ""))
        genre := pyStr (get_value_from_row row ["Жанр", "genre", "Категория"] (Value.str ""))
        quantity := quantity
        price := price
        discount := discount
        final_price := final_price
        total_amount := total_amount
        status := pyStr (get_value_from_row row ["Статус_заказа", "status", "Статус"]
          (Value.str "Ожидает оплаты"))
        delivery_method := pyStr (get_value_from_row row ["Способ_доставки", "delivery_method", "Доставка"]
          (Value.str "Самовывоз"))
        order_notes := pyStr (get_value_from_row row ["Примечание_к_заказу", "notes", "Комментарий"]
          (Value.str "")) }

/-- Python `_process_order_row`: skip when no customer name resolves; find
the customer (auto-creating and appending one, with the counter bumped, when
not found); then recompute the derived price fields from quantity, price and
discount.  The auto-created customer persists even when the later field
parsing makes the row yield no order. -/
def process_order_row (today : Date) (st : AppState) (row : Row)
    (order_index : Nat) : Option Order × AppState :=
  let nameVal := get_value_from_row row ["ФИО_клиента", "client_name", "Клиент", "ФИО"]
    (Value.str "")
  if !(pyTruthy nameVal) then (Option.none, st)
  else
    let customer_name := pyStr nameVal
    match find_customer_by_name st.customers customer_name with
    | some customer =>
      (buildExcelOrder today row order_index customer customer_name, st)
    | Option.none =>
      let customer := create_new_customer today st.next_customer_id customer_name
      let st' := { st with customers := st.customers ++ [customer],
                           next_customer_id := st.next_customer_id + 1 }
      (buildExcelOrder today row order_index customer customer_name, st')

/-- Python `import_customers_from_excel`: ids are assigned from the counter
value at entry plus the DataFrame row index, so skipped rows still consume
an id; the rows that produce a record are returned. -/
def import_customers_from_excel (today : Date) (rows : List Row)
    (st : AppState) : List Customer :=
  (rows.enum).filterMap fun p =>
    process_customer_row today p.2 (st.next_customer_id + p.1)

/-- Loop body of `import_orders_from_excel`: the order index is the order id
counter at entry plus the row index, while the customer-creating side effect
threads through the state. -/
def importOrdersAux (today : Date) (start : Nat) :
    List (Nat × Row) → AppState → List Order → List Order × AppState
  | [], st, acc => (acc, st)
  | (i, row) :: rest, st, acc =>
    match process_order_row today st row (start + i) with
    | (some o, st') => importOrdersAux today start rest st' (acc ++ [o])
    | (Option.none, st') => importOrdersAux today start rest st' acc

/-- Python `import_orders_from_excel`: returns the produced orders together
with the state as mutated by customer auto-creation. -/
def import_orders_from_excel (today : Date) (rows : List Row)
    (st : AppState) : List Order × AppState :=
  importOrdersAux today st.next_order_id rows.enum st []

/-- Python `import_all_data`: optionally import a customers file (extending
the directory and advancing the customer id counter by the number of
accepted rows), then optionally an orders file (extending the ledger and
advancing the order id counter by the number of accepted rows). -/
def import_all_data (today : Date) (custRows ordRows : Option (List Row))
    (st : AppState) : AppState :=
  let st1 :=
    match custRows with
    | Option.none => st
    | some rows =>
      let cs := import_customers_from_excel today rows st
      if cs.isEmpty then st
      else { st with customers := st.customers ++ cs,
                     next_customer_id := st.next_customer_id + cs.length }
  match ordRows with
  | Option.none => st1
  | some rows =>
    let (os, st2) := import_orders_from_excel today rows st1
    if os.isEmpty then st2
    else { st2 with orders := st2.orders ++ os,
                    next_order_id := st2.next_order_id + os.length }

end ExcelDataImporter

namespace OrderManager

/-- Python `get_customer_orders`: filter of the ledger by owning customer. -/
def get_customer_orders (customer_id : Nat) (orders : List Order) :
    List Order :=
  orders.filter (fun o => o.customer_id == customer_id)

/-- Python `get_customer_total_spent`: float sum of the total amounts of the
customer orders. -/
def get_customer_total_spent (customer_id : Nat) (orders : List Order) :
    PyFloat :=
  PyFloat.sum ((get_customer_orders customer_id orders).map
    (fun o => o.total_amount))

/-- The dictionary `get_customer_order_statistics` returns. -/
structure Stats where
  total_orders : Nat
  total_amount : PyFloat
  average_order : PyFloat
  last_order : Option String
deriving DecidableEq, Repr

/-- Python `get_customer_order_statistics`: all-zero/absent on a customer
with no orders; otherwise sum, average (sum divided by count) and the
maximum of the nonempty order date strings (absent when all are empty). -/
def get_customer_order_statistics (customer_id : Nat) (orders : List Order) :
    Stats :=
  let customer_orders := get_customer_orders customer_id orders
  if customer_orders.isEmpty then
    { total_orders := 0, total_amount := PyFloat.finite 0,
      average_order := PyFloat.finite 0, last_order := Option.none }
  else
    let total_amount := PyFloat.sum (customer_orders.map (fun o => o.total_amount))
    let order_dates := customer_orders.filterMap
      (fun o => if o.date ≠ "" then some o.date else Option.none)
    { total_orders := customer_orders.length
      total_amount := total_amount
      average_order := PyFloat.div total_amount
        (PyFloat.finite (customer_orders.length : ℚ))
      last_order := order_dates.max? }

end OrderManager

/-- Repetition of a rule character, as Python `"=" * n`. -/
def ruleLine (c : Char) (n : Nat) : String := String.mk (List.replicate n c)

/-- Python float formatting `"{:.2f}"`, on the exact-rational float model
(rounding to two decimal places; half-up on the exact value). -/
def format2 : PyFloat → String
  | PyFloat.inf => "inf"
  | PyFloat.neginf => "-inf"
  | PyFloat.nan => "nan"
  | PyFloat.finite q =>
    let sign := if q < 0 then "-" else ""
    let n := (round (|q| * 100) : Int).toNat
    sign ++ toString (n / 100) ++ "." ++ padNum 2 (n % 100)

/-- Increment of the count stored under a key in an association list, as one
update of a `defaultdict(int)` (insertion order of first occurrence kept). -/
def bumpKey (key : String) : List (String × Nat) → List (String × Nat)
  | [] => [(key, 1)]
  | (k, n) :: rest =>
    if k = key then (k, n + 1) :: rest else (k, n) :: bumpKey key rest

/-- Sum of the counts of an association list. -/
def bucketSum (l : List (String × Nat)) : Nat := (l.map (fun p => p.2)).sum

namespace ReportGenerator

open OrderManager

/-- Per-customer detail block of `generate_customer_summary`. -/
def customerSummaryLine (orders : List Order) (c : Customer) : String :=
  let customer_orders := get_customer_orders c.id orders
  let total_spent := get_customer_total_spent c.id orders
  "ID: " ++ toString c.id ++ " | ФИО: " ++ c.full_name ++ "\n" ++
  "    Заказов: " ++ toString customer_orders.length ++ " | Потрачено: " ++
  format2 total_spent ++ " руб.\n" ++
  "    Зарегистрирован: " ++ c.registration_date ++ "\n\n"

/-- Python `generate_customer_summary`. -/
def generate_customer_summary (customers : List Customer)
    (orders : List Order) : String :=
  let customers_with_orders := (customers.filter
    (fun c => !(get_customer_orders c.id orders).isEmpty)).length
  let total_revenue := (customers.filter
    (fun c => !(get_customer_orders c.id orders).isEmpty)).foldl
    (fun acc c => PyFloat.add acc (get_customer_total_spent c.id orders))
    (PyFloat.finite 0)
  "ОТЧЕТ ПО КЛИЕНТАМ - СВОДКА\n" ++ ruleLine '=' 50 ++ "\n\n" ++
  "Всего клиентов: " ++ toString customers.length ++ "\n" ++
  "Клиентов с заказами: " ++ toString customers_with_orders ++ "\n" ++
  "Общая выручка: " ++ format2 total_revenue ++ " руб.\n\n" ++
  "ДЕТАЛИ ПО КЛИЕНТАМ:\n" ++ ruleLine '-' 40 ++ "\n" ++
  String.join (customers.map (customerSummaryLine orders))

/-- One customer of the bucket loop of `generate_registration_analysis`:
count the customer under the year-month key (the first seven characters of
the date) only when the registration date is truthy (nonempty). -/
def regStep (acc : List (String × Nat)) (c : Customer) : List (String × Nat) :=
  if c.registration_date ≠ "" then bumpKey (c.registration_date.take 7) acc
  else acc

/-- The per-month registration buckets of `generate_registration_analysis`. -/
def monthlyRegistrations (customers : List Customer) : List (String × Nat) :=
  customers.foldl regStep []

/-- The grand total `generate_registration_analysis` reports: the length of
the customer list handed to the report. -/
def registrationGrandTotal (customers : List Customer) : Nat :=
  customers.length

/-- Ascending insertion into a sorted list of keys, for `sorted(keys)`. -/
def insertAsc (s : String) : List String → List String
  | [] => [s]
  | t :: rest => if s ≤ t then s :: t :: rest else t :: insertAsc s rest

/-- Python `sorted` on the bucket keys. -/
def sortKeys (l : List String) : List String := l.foldr insertAsc []

/-- Python `generate_registration_analysis`; the date range parameters are
accepted but unused. -/
def generate_registration_analysis (customers : List Customer)
    (date_from date_to : Option String) : String :=
  let monthly := monthlyRegistrations customers
  "АНАЛИЗ РЕГИСТРАЦИЙ КЛИЕНТОВ\n" ++ ruleLine '=' 50 ++ "\n\n" ++
  "РЕГИСТРАЦИИ ПО МЕСЯЦАМ:\n" ++ ruleLine '-' 25 ++ "\n" ++
  String.join ((sortKeys (monthly.map (fun p => p.1))).map (fun month =>
    month ++ ": " ++
    toString (((monthly.find? (fun p => p.1 == month)).map (fun p => p.2)).getD 0)
    ++ " клиентов\n")) ++
  "\nВсего регистраций: " ++ toString (registrationGrandTotal customers) ++ "\n"

/-- Python `generate_order_statistics`; the date range parameters are
accepted but unused. -/
def generate_order_statistics (orders : List Order)
    (date_from date_to : Option String) : String :=
  let header := "СТАТИСТИКА ЗАКАЗОВ\n" ++ ruleLine '=' 40 ++ "\n\n"
  if orders.isEmpty then header ++ "Заказы не найдены.\n"
  else
    let total_orders := orders.length
    let total_revenue := PyFloat.sum (orders.map (fun o => o.total_amount))
    let avg_order := PyFloat.div total_revenue (PyFloat.finite (total_orders : ℚ))
    let status_counts := orders.foldl (fun acc o => bumpKey o.status acc) []
    header ++
    "Всего заказов: " ++ toString total_orders ++ "\n" ++
    "Общая выручка: " ++ format2 total_revenue ++ " руб.\n" ++
    "Средний чек: " ++ format2 avg_order ++ " руб.\n\n" ++
    "ЗАКАЗЫ ПО СТАТУСАМ:\n" ++ ruleLine '-' 20 ++ "\n" ++
    String.join (status_counts.map (fun p => p.1 ++ ": " ++ toString p.2 ++ "\n"))

/-- Descending-by-count order on (customer, order count) pairs; Python
`sort(key=lambda x: x[1], reverse=True)` sorts by this relation, stably. -/
def actRel (a b : Customer × Nat) : Prop := b.2 ≤ a.2

instance : DecidableRel actRel := fun a b => Nat.decLe b.2 a.2

instance : IsTotal (Customer × Nat) actRel :=
  ⟨fun a b => (Nat.le_total b.2 a.2).elim Or.inl Or.inr⟩

instance : IsTrans (Customer × Nat) actRel :=
  ⟨fun _ _ _ h1 h2 => Nat.le_trans h2 h1⟩

/-- The (customer, order count) pairs collected by
`generate_customer_activity`: customers with at least one order, in the
original directory order. -/
def customersWithOrders (customers : List Customer) (orders : List Order) :
    List (Customer × Nat) :=
  customers.filterMap fun c =>
    let customer_orders := get_customer_orders c.id orders
    if customer_orders.isEmpty then Option.none
    else some (c, customer_orders.length)

/-- The ranking `generate_customer_activity` prints: the pairs sorted
descending by count with Python's stable sort, truncated to the first ten. -/
def activityRanking (customers : List Customer) (orders : List Order) :
    List (Customer × Nat) :=
  (List.insertionSort actRel (customersWithOrders customers orders)).take 10

/-- Python `generate_customer_activity`; the date range parameters are
accepted but unused. -/
def generate_customer_activity (customers : List Customer)
    (orders : List Order) (date_from date_to : Option String) : String :=
  "АКТИВНОСТЬ КЛИЕНТОВ\n" ++ ruleLine '=' 40 ++ "\n\n" ++
  "ТОП КЛИЕНТОВ ПО КОЛИЧЕСТВУ ЗАКАЗОВ:\n" ++ ruleLine '-' 45 ++ "\n" ++
  String.join ((activityRanking customers orders).map (fun p =>
    p.1.full_name ++ ": " ++ toString p.2 ++ " заказов, " ++
    format2 (get_customer_total_spent p.1.id orders) ++ " руб. потрачено\n"))

/-- Python `generate_report`: dispatch on the report type string, with a
literal message for an unknown type. -/
def generate_report (report_type : String) (customers : List Customer)
    (orders : List Order) (date_from date_to : Option String) : String :=
  if report_type = "customer_summary" then
    generate_customer_summary customers orders
  else if report_type = "registration_analysis" then
    generate_registration_analysis customers date_from date_to
  else if report_type = "order_statistics" then
    generate_order_statistics orders date_from date_to
  else if report_type = "customer_activity" then
    generate_customer_activity customers orders date_from date_to
  else "Неизвестный тип отчета"

end ReportGenerator

section Lemmas

/-- Bumping a key adds exactly one to the total bucket count. -/
theorem bucketSum_bumpKey (key : String) (l : List (String × Nat)) :
    bucketSum (bumpKey key l) = bucketSum l + 1 := by
  induction l with
  | nil => simp [bumpKey, bucketSum]
  | cons p rest ih =>
    obtain ⟨k, n⟩ := p
    by_cases h : k = key
    · simp [bumpKey, h, bucketSum]
      ring
    · simp [bumpKey, h, bucketSum] at ih ⊢
      omega

/-- The bucket fold adds one per customer with a nonempty registration
date. -/
theorem bucketSum_monthly_fold (cs : List Customer)
    (acc : List (String × Nat)) :
    bucketSum (cs.foldl ReportGenerator.regStep acc)
      = bucketSum acc +
        (cs.filter (fun c => c.registration_date ≠ "")).length := by
  induction cs generalizing acc with
  | nil => simp
  | cons c rest ih =>
    rw [List.foldl_cons, List.filter_cons, ih]
    by_cases h : c.registration_date = ""
    · simp [ReportGenerator.regStep, h]
    · simp [ReportGenerator.regStep, h, bucketSum_bumpKey]
      omega

/-- The per-month buckets count exactly the customers whose registration
date is nonempty. -/
theorem bucketSum_monthlyRegistrations (cs : List Customer) :
    bucketSum (ReportGenerator.monthlyRegistrations cs)
      = (cs.filter (fun c => c.registration_date ≠ "")).length := by
  have h := bucketSum_monthly_fold cs []
  simpa [ReportGenerator.monthlyRegistrations, bucketSum] using h

end Lemmas

/-- C9: for each report kind the generated text is the same for any two
choices of the date range parameters on the same customers and orders: the
accepted date parameters are never applied as a filter. -/
theorem C9_report_ignores_date_range (report_type : String)
    (customers : List Customer) (orders : List Order)
    (d1 d2 d1' d2' : Option String) :
    ReportGenerator.generate_report report_type customers orders d1 d2
      = ReportGenerator.generate_report report_type customers orders d1' d2' := by
  simp only [ReportGenerator.generate_report,
    ReportGenerator.generate_registration_analysis,
    ReportGenerator.generate_order_statistics,
    ReportGenerator.generate_customer_activity]

/-- C10: the grand total of the registration analysis is the full customer
count, the per-month buckets count only customers with a nonempty
registration date, and hence with at least one dateless customer the bucket
counts add up to strictly less than the reported total. -/
theorem C10_registration_buckets_vs_total (cs : List Customer) :
    ReportGenerator.registrationGrandTotal cs = cs.length
    ∧ bucketSum (ReportGenerator.monthlyRegistrations cs)
        = (cs.filter (fun c => c.registration_date ≠ "")).length
    ∧ ((∃ c ∈ cs, c.registration_date = "") →
        bucketSum (ReportGenerator.monthlyRegistrations cs)
          < ReportGenerator.registrationGrandTotal cs) := by
  refine ⟨rfl, bucketSum_monthlyRegistrations cs, ?_⟩
  rintro ⟨c, hc, hdate⟩
  rw [bucketSum_monthlyRegistrations, ReportGenerator.registrationGrandTotal]
  have hsplit := List.length_eq_length_filter_add (l := cs)
    (fun c => decide (c.registration_date ≠ ""))
  have hmem : c ∈ cs.filter (fun c => !(decide (c.registration_date ≠ ""))) := by
    simp only [List.mem_filter]
    exact ⟨hc, by simp [hdate]⟩
  have hpos := List.length_pos_of_mem hmem
  omega

/-- Witness for C10 at a concrete directory with one dateless customer. -/
theorem C10_witness :
    bucketSum (ReportGenerator.monthlyRegistrations
      [⟨1, "A", "", "", "2024-03-01", "", 0, PyFloat.finite 0⟩,
       ⟨2, "B", "", "", "", "", 0, PyFloat.finite 0⟩])
      < ReportGenerator.registrationGrandTotal
        [⟨1, "A", "", "", "2024-03-01", "", 0, PyFloat.finite 0⟩,
         ⟨2, "B", "", "", "", "", 0, PyFloat.finite 0⟩] :=
  (C10_registration_buckets_vs_total _).2.2
    ⟨⟨2, "B", "", "", "", "", 0, PyFloat.finite 0⟩, by decide, rfl⟩

/-- C2: evaluation of the embedded code at the failing scenario.  A fresh
session imports an Excel customer file whose first row has an empty name
(skipped) and whose second row is accepted: the accepted row gets id 2 (row
index added to the counter), but the counter is advanced only by the number
of accepted rows, to 2; the next explicitly added customer therefore also
gets id 2, so the directory holds two customers with the same id. -/
theorem C2_code_evaluation :
    ((CustomerManagementSystem.add_customer ⟨"Carol", "", "", "2024-01-02", ""⟩
      (ExcelDataImporter.import_all_data ⟨2024, 1, 1⟩
        (some [[("ФИО", Value.str "")], [("ФИО", Value.str "Bob")]])
        Option.none initialState)).customers.map (fun c => c.id)) = [2, 2]
    ∧ ¬ ((CustomerManagementSystem.add_customer ⟨"Carol", "", "", "2024-01-02", ""⟩
      (ExcelDataImporter.import_all_data ⟨2024, 1, 1⟩
        (some [[("ФИО", Value.str "")], [("ФИО", Value.str "Bob")]])
        Option.none initialState)).customers.map (fun c => c.id)).Nodup := by
  refine ⟨by decide, by decide⟩

/-- C3 counterexample: a customer row whose name cell is a single space is
accepted on the Excel path (the raw value is truthy, no trimming happens),
while the same row is rejected on the CSV path; the claim says both paths
reject it. -/
theorem C3_counterexample :
    ExcelDataImporter.process_customer_row ⟨2024, 1, 1⟩
      [("ФИО", Value.str " ")] 1
      = some ⟨1, " ", "", "", "2024-01-01", "", 0, PyFloat.finite 0⟩
    ∧ (CustomerManagementSystem.load_customers_from_csv ⟨2024, 1, 1⟩
        [[("ФИО", Value.str " ")]] initialState).customers = [] := by
  refine ⟨by decide, by decide⟩

/-- C3 amended: on the CSV path a customer row is rejected exactly when the
cleaned (trimmed) full name is empty; on the Excel path it is rejected
exactly when the raw resolved name value is falsy — the value is not
trimmed, so a whitespace-only name is accepted there. -/
theorem C3_amended :
    (∀ (today : Date) (st : AppState) (row : Row),
      ((CustomerManagementSystem.load_customers_from_csv today [row] st).customers ≠ [])
        ↔ CustomerManagementSystem.clean_string
            (rowGet row "ФИО" (rowGet row "full_name" (Value.str ""))) ≠ "")
    ∧ (∀ (today : Date) (row : Row) (cid : Nat),
      (ExcelDataImporter.process_customer_row today row cid).isSome
        = pyTruthy (ExcelDataImporter.get_value_from_row row
            ExcelDataImporter.customerNameCols (Value.str ""))) := by
  constructor
  · intro today st row
    by_cases h : CustomerManagementSystem.clean_string
        (rowGet row "ФИО" (rowGet row "full_name" (Value.str ""))) = ""
    · simp [CustomerManagementSystem.load_customers_from_csv,
        CustomerManagementSystem.loadCustomersAux,
        CustomerManagementSystem.csvCustomerOfRow, h]
    · simp [CustomerManagementSystem.load_customers_from_csv,
        CustomerManagementSystem.loadCustomersAux,
        CustomerManagementSystem.csvCustomerOfRow, h]
  · intro today row cid
    by_cases h : pyTruthy (ExcelDataImporter.get_value_from_row row
        ExcelDataImporter.customerNameCols (Value.str ""))
    · simp [ExcelDataImporter.process_customer_row, h]
    · simp [ExcelDataImporter.process_customer_row, h]

/-- C5 counterexample: the coercions are not total.  A cell whose text
parses to an infinite float makes `parse_int` raise `OverflowError` (from
`int(float(value))`), which the surrounding `except (ValueError, TypeError)`
does not catch, on both the CSV and the Excel path. -/
theorem C5_counterexample :
    CustomerManagementSystem.parse_int (Value.str "inf") = Except.error ()
    ∧ ExcelDataImporter.parse_int (Value.str "inf") = Except.error () := by
  refine ⟨rfl, rfl⟩

/-- C5 amended: `parse_float` is total — null and unparseable values yield
0.0 and parseable values yield the parsed float — and `parse_int` yields 1
on null, unparseable and NaN-parsing values and the truncated float
otherwise, except that a value parsing to an infinite float raises an
uncaught `OverflowError`; the Excel coercions behave identically, and
`"3.0"` yields 3 through the float intermediate. -/
theorem C5_amended (v : Value) :
    (pyIsNa v = true →
      CustomerManagementSystem.parse_int v = Except.ok 1
      ∧ CustomerManagementSystem.parse_float v = PyFloat.finite 0)
    ∧ (pyFloatOf v = Option.none →
      CustomerManagementSystem.parse_int v = Except.ok 1
      ∧ CustomerManagementSystem.parse_float v = PyFloat.finite 0)
    ∧ (∀ q : ℚ, pyIsNa v = false → pyFloatOf v = some (PyFloat.finite q) →
      CustomerManagementSystem.parse_int v = Except.ok (ratTrunc q)
      ∧ CustomerManagementSystem.parse_float v = PyFloat.finite q)
    ∧ (pyIsNa v = false → pyFloatOf v = some PyFloat.nan →
      CustomerManagementSystem.parse_int v = Except.ok 1
      ∧ CustomerManagementSystem.parse_float v = PyFloat.nan)
    ∧ (CustomerManagementSystem.parse_int v = Except.error () ↔
      (pyIsNa v = false ∧ (pyFloatOf v = some PyFloat.inf
        ∨ pyFloatOf v = some PyFloat.neginf)))
    ∧ ExcelDataImporter.parse_int v = CustomerManagementSystem.parse_int v
    ∧ ExcelDataImporter.parse_float v = CustomerManagementSystem.parse_float v
    ∧ CustomerManagementSystem.parse_int (Value.str "3.0") = Except.ok 3 := by
  refine ⟨?_, ?_, ?_, ?_, ?_, rfl, rfl, ?_⟩
  · intro h
    exact ⟨by simp [CustomerManagementSystem.parse_int, h],
      by simp [CustomerManagementSystem.parse_float, h]⟩
  · intro h
    by_cases hna : pyIsNa v
    · exact ⟨by simp [CustomerManagementSystem.parse_int, hna],
        by simp [CustomerManagementSystem.parse_float, hna]⟩
    · exact ⟨by simp [CustomerManagementSystem.parse_int, hna, h],
        by simp [CustomerManagementSystem.parse_float, hna, h]⟩
  · intro q hna hq
    exact ⟨by simp [CustomerManagementSystem.parse_int, hna, hq],
      by simp [CustomerManagementSystem.parse_float, hna, hq]⟩
  · intro hna hq
    exact ⟨by simp [CustomerManagementSystem.parse_int, hna, hq],
      by simp [CustomerManagementSystem.parse_float, hna, hq]⟩
  · by_cases hna : pyIsNa v
    · simp [CustomerManagementSystem.parse_int, hna]
    · rcases hf : pyFloatOf v with _ | f
      · simp [CustomerManagementSystem.parse_int, hna, hf]
      · cases f <;> simp [CustomerManagementSystem.parse_int, hna, hf]
  · simp [CustomerManagementSystem.parse_int, pyIsNa, pyFloatOf, pyFloatOfString,
      pyStrip, pyLower, parseSign, splitAllChar, parseMantissa, parseExponent,
      natOfDigits, ratTrunc]

/-- Witness for C5 at concrete inputs: a null cell and an unparseable
string both coerce to the defaults. -/
theorem C5_witness :
    (CustomerManagementSystem.parse_int Value.none = Except.ok 1
      ∧ CustomerManagementSystem.parse_float Value.none = PyFloat.finite 0)
    ∧ (CustomerManagementSystem.parse_int (Value.str "abc") = Except.ok 1
      ∧ CustomerManagementSystem.parse_float (Value.str "abc") = PyFloat.finite 0) :=
  ⟨(C5_amended Value.none).1 (by decide),
   (C5_amended (Value.str "abc")).2.1 (by decide)⟩

/-- C4 counterexample: on the Excel path the ambiguous string "05/06/2024"
is parsed day-first (the format list tries `%d/%m/%Y` before `%m/%d/%Y`),
yielding 2024-06-05, not the month-first 2024-05-06 the claim states. -/
theorem C4_counterexample :
    ExcelDataImporter.parse_date (Value.str "05/06/2024") ⟨2024, 1, 1⟩
      = "2024-06-05"
    ∧ ExcelDataImporter.parse_date (Value.str "05/06/2024") ⟨2024, 1, 1⟩
      ≠ "2024-05-06" := by
  refine ⟨by decide, by decide⟩

/-- C4 amended: the CSV path tries `YYYY-MM-DD`, `DD.MM.YYYY`, `MM/DD/YYYY`,
`DD-MM-YYYY`, `YYYY/MM/DD` in that order, so "05/06/2024" parses month
first; the Excel path tries `YYYY-MM-DD`, `DD.MM.YYYY`, `DD/MM/YYYY`,
`MM/DD/YYYY`, `YYYY.MM.DD`, `DD-MM-YYYY`, `YYYY/MM/DD`, so "05/06/2024"
parses day first and "13/06/2024" is accepted only there; on both paths the
first matching format wins, and when no format matches (or the cell is
null) today is returned and no exception escapes. -/
theorem C4_amended (today : Date) :
    CustomerManagementSystem.parse_date (Value.str "05/06/2024") today
      = fmtDate ⟨2024, 5, 6⟩
    ∧ ExcelDataImporter.parse_date (Value.str "05/06/2024") today
      = fmtDate ⟨2024, 6, 5⟩
    ∧ ExcelDataImporter.parse_date (Value.str "13/06/2024") today
      = fmtDate ⟨2024, 6, 13⟩
    ∧ CustomerManagementSystem.parse_date (Value.str "13/06/2024") today
      = fmtDate today
    ∧ (∀ s : String,
        (∀ f ∈ CustomerManagementSystem.csvDateFormats,
          tryParseDate f (pyStrip s) = Option.none) →
        CustomerManagementSystem.parse_date (Value.str s) today = fmtDate today)
    ∧ (∀ s : String,
        (∀ f ∈ ExcelDataImporter.excelDateFormats,
          tryParseDate f (pyStrip s) = Option.none) →
        ExcelDataImporter.parse_date (Value.str s) today = fmtDate today)
    ∧ CustomerManagementSystem.parse_date Value.none today = fmtDate today
    ∧ ExcelDataImporter.parse_date Value.none today = fmtDate today := by
  refine ⟨rfl, rfl, rfl, rfl, ?_, ?_, rfl, rfl⟩
  · intro s h
    have hn : CustomerManagementSystem.csvDateFormats.findSome?
        (fun f => tryParseDate f (pyStrip (pyStr (Value.str s)))) = Option.none := by
      rw [List.findSome?_eq_none_iff]
      intro f hf
      exact h f hf
    simp [CustomerManagementSystem.parse_date, pyIsNa, hn]
  · intro s h
    have hn : ExcelDataImporter.excelDateFormats.findSome?
        (fun f => tryParseDate f (pyStrip s)) = Option.none := by
      rw [List.findSome?_eq_none_iff]
      intro f hf
      exact h f hf
    simp [ExcelDataImporter.parse_date, pyIsNa, hn]

/-- Witness for C4: a string no format matches falls back to today on both
paths. -/
theorem C4_witness :
    CustomerManagementSystem.parse_date (Value.str "notadate") ⟨2024, 1, 1⟩
      = fmtDate ⟨2024, 1, 1⟩
    ∧ ExcelDataImporter.parse_date (Value.str "notadate") ⟨2024, 1, 1⟩
      = fmtDate ⟨2024, 1, 1⟩ :=
  ⟨(C4_amended ⟨2024, 1, 1⟩).2.2.2.2.1 "notadate" (by decide),
   (C4_amended ⟨2024, 1, 1⟩).2.2.2.2.2.1 "notadate" (by decide)⟩

/-- C1 counterexample: on the CSV order import path the derived fields are
not recomputed: the claim's example row (quantity 3, price 100, discount
10, no source total columns) imports with final price 0.0 and total amount
0.0 — the source columns are copied (here defaulted), not derived — instead
of the claimed 90.0 and 270.0. -/
theorem C1_counterexample :
    ((CustomerManagementSystem.load_orders_from_csv ⟨2024, 1, 1⟩
      [[("ФИО_клиента", Value.str "Ivan Ivanov"), ("Количество", Value.int 3),
        ("Цена_за_шт", Value.int 100), ("Скидка_%", Value.int 10)]]
      { customers := [⟨1, "Ivan Ivanov", "", "", "2024-01-01", "", 0, PyFloat.finite 0⟩],
        orders := [], next_customer_id := 2, next_order_id := 1 }).toOption.map
      (fun st => st.orders.map (fun o => (o.final_price, o.total_amount))))
      = some [(PyFloat.finite 0, PyFloat.finite 0)]
    ∧ (PyFloat.finite 0 ≠ PyFloat.finite 90 ∧ PyFloat.finite 0 ≠ PyFloat.finite 270) := by
  refine ⟨by decide, by decide, by decide⟩

/-- Derived price fields of any order built by the Excel row builder satisfy
the recomputation equations. -/
theorem buildExcelOrder_recomputes (today : Date) (row : Row) (idx : Nat)
    (c : Customer) (name : String) :
    Option.elim (ExcelDataImporter.buildExcelOrder today row idx c name) True
      (fun o =>
        o.final_price = PyFloat.mul o.price
          (PyFloat.sub (PyFloat.finite 1) (PyFloat.div o.discount (PyFloat.finite 100)))
        ∧ o.total_amount = PyFloat.mul o.final_price (PyFloat.finite (o.quantity : ℚ))) := by
  unfold ExcelDataImporter.buildExcelOrder
  cases h : ExcelDataImporter.parse_int
      (ExcelDataImporter.get_value_from_row row
        ["Количество", "quantity", "Кол-во"] (Value.int 1)) with
  | error e => simp
  | ok q => simp

/-- C1 amended: the Excel order path always recomputes the derived fields as
final price = price × (1 − discount/100) and total = final price ×
quantity, ignoring any source-supplied total (demonstrated with a bogus
source total column), and the claim's example yields 90.0 and 270.0 there;
the CSV path instead copies the source-supplied final-price and total
columns verbatim (defaulting to 0.0) without recomputation. -/
theorem C1_amended :
    (∀ (today : Date) (st : AppState) (row : Row) (idx : Nat),
      Option.elim (ExcelDataImporter.process_order_row today st row idx).1 True
        (fun o =>
          o.final_price = PyFloat.mul o.price
            (PyFloat.sub (PyFloat.finite 1) (PyFloat.div o.discount (PyFloat.finite 100)))
          ∧ o.total_amount = PyFloat.mul o.final_price (PyFloat.finite (o.quantity : ℚ))))
    ∧ ((ExcelDataImporter.process_order_row ⟨2024, 1, 1⟩
        { customers := [⟨1, "Ivan Ivanov", "", "", "2024-01-01", "", 0, PyFloat.finite 0⟩],
          orders := [], next_customer_id := 2, next_order_id := 1 }
        [("ФИО_клиента", Value.str "Ivan Ivanov"), ("Количество", Value.int 3),
         ("Цена_за_шт", Value.int 100), ("Скидка_%", Value.int 10),
         ("Общая_сумма", Value.int 999)] 1).1.map
          (fun o => (o.final_price, o.total_amount)))
        = some (PyFloat.finite 90, PyFloat.finite 270)
    ∧ ((CustomerManagementSystem.load_orders_from_csv ⟨2024, 1, 1⟩
        [[("ФИО_клиента", Value.str "Ivan Ivanov"), ("Количество", Value.int 3),
          ("Цена_за_шт", Value.int 100), ("Скидка_%", Value.int 10),
          ("Итоговая_цена", Value.int 5), ("Общая_сумма", Value.int 999)]]
        { customers := [⟨1, "Ivan Ivanov", "", "", "2024-01-01", "", 0, PyFloat.finite 0⟩],
          orders := [], next_customer_id := 2, next_order_id := 1 }).toOption.map
        (fun st => st.orders.map (fun o => (o.final_price, o.total_amount))))
        = some [(PyFloat.finite 5, PyFloat.finite 999)] := by
  refine ⟨?_, ?_, by decide⟩
  · intro today st row idx
    unfold ExcelDataImporter.process_order_row
    dsimp only
    split
    · simp
    · split
      · exact buildExcelOrder_recomputes _ _ _ _ _
      · exact buildExcelOrder_recomputes _ _ _ _ _
  · simp [ExcelDataImporter.process_order_row, ExcelDataImporter.buildExcelOrder,
      ExcelDataImporter.get_value_from_row, ExcelDataImporter.find_customer_by_name,
      ExcelDataImporter.parse_int, ExcelDataImporter.parse_float, pyFloatOf, pyIsNa,
      pyTruthy, pyStr, pyStrip, pyLower, rowGet, ratTrunc, PyFloat.mul, PyFloat.sub,
      PyFloat.add, PyFloat.neg, PyFloat.div]
    norm_num [ratTrunc]

/-- In a directory with pairwise distinct ids, the customers matching a
present id form exactly the singleton of that customer. -/
theorem filter_eq_id_single (l : List Customer)
    (hN : (l.map (fun x => x.id)).Nodup) (c : Customer) (hc : c ∈ l) :
    l.filter (fun x => x.id == c.id) = [c] := by
  induction l with
  | nil => cases hc
  | cons a t ih =>
    rw [List.map_cons, List.nodup_cons] at hN
    obtain ⟨ha, ht⟩ := hN
    rcases List.mem_cons.mp hc with rfl | hct
    · rw [List.filter_cons_of_pos (by simp)]
      have hnil : t.filter (fun x => x.id == c.id) = [] := by
        rw [List.filter_eq_nil_iff]
        intro x hx hbeq
        exact ha (List.mem_map.mpr ⟨x, hx, by simp at hbeq; exact hbeq⟩)
      rw [hnil]
    · have hne : ¬ (a.id == c.id) = true := by
        intro hbeq
        exact ha (List.mem_map.mpr ⟨c, hct, by simp at hbeq; exact hbeq.symm⟩)
      rw [List.filter_cons_of_neg (by simpa using hne)]
      exact ih ht hct

/-- C6: deleting a customer (with distinct directory ids) removes exactly
that customer and exactly the orders referencing it, as one step of the
embedded transition: every other customer and every order of another
customer survives in its original relative position (the result lists are
sublists), the removed order count equals the customer order count, and no
order of the deleted customer remains. -/
theorem C6_delete_cascade (st : AppState) (cid : Nat) (c : Customer)
    (hN : (st.customers.map (fun x => x.id)).Nodup)
    (hc : c ∈ st.customers) (hid : c.id = cid) :
    (CustomerManagementSystem.delete_customer cid st).customers.length + 1
        = st.customers.length
    ∧ (∀ x ∈ st.customers, x.id ≠ cid →
        x ∈ (CustomerManagementSystem.delete_customer cid st).customers)
    ∧ (∀ x ∈ (CustomerManagementSystem.delete_customer cid st).customers,
        x ∈ st.customers ∧ x.id ≠ cid)
    ∧ (CustomerManagementSystem.delete_customer cid st).customers.Sublist
        st.customers
    ∧ (CustomerManagementSystem.delete_customer cid st).orders.length
        + (OrderManager.get_customer_orders cid st.orders).length
        = st.orders.length
    ∧ (∀ o ∈ st.orders, o.customer_id ≠ cid →
        o ∈ (CustomerManagementSystem.delete_customer cid st).orders)
    ∧ (∀ o ∈ (CustomerManagementSystem.delete_customer cid st).orders,
        o ∈ st.orders ∧ o.customer_id ≠ cid)
    ∧ (CustomerManagementSystem.delete_customer cid st).orders.Sublist st.orders
    ∧ OrderManager.get_customer_orders cid
        (CustomerManagementSystem.delete_customer cid st).orders = [] := by
  have hfind : (CustomerManagementSystem.find_customer_by_id st.customers cid).isSome := by
    rw [CustomerManagementSystem.find_customer_by_id, List.find?_isSome]
    exact ⟨c, hc, by simp [hid]⟩
  have hdel : CustomerManagementSystem.delete_customer cid st
      = { st with customers := st.customers.filter (fun x => x.id != cid),
                  orders := st.orders.filter (fun o => o.customer_id != cid) } := by
    rw [CustomerManagementSystem.delete_customer, if_pos hfind]
  rw [hdel]
  subst hid
  refine ⟨?_, ?_, ?_, ?_, ?_, ?_, ?_, ?_, ?_⟩
  · have hsplit := List.length_eq_length_filter_add
      (l := st.customers) (fun x => x.id == c.id)
    have hone : (st.customers.filter (fun x => x.id == c.id)).length = 1 := by
      rw [filter_eq_id_single st.customers hN c hc]
      rfl
    have hsame : st.customers.filter (fun x => x.id != c.id)
        = st.customers.filter (fun x => !(x.id == c.id)) := by
      simp [bne]
    simp only [hsame]
    omega
  · intro x hx hne
    simp only [List.mem_filter]
    exact ⟨hx, by simpa using hne⟩
  · intro x hx
    simp only [List.mem_filter] at hx
    exact ⟨hx.1, by simpa using hx.2⟩
  · exact List.filter_sublist _
  · have hsplit := List.length_eq_length_filter_add
      (l := st.orders) (fun o => o.customer_id == c.id)
    have hsame : st.orders.filter (fun o => o.customer_id != c.id)
        = st.orders.filter (fun o => !(o.customer_id == c.id)) := by
      simp [bne]
    rw [OrderManager.get_customer_orders]
    simp only [hsame]
    omega
  · intro o ho hne
    simp only [List.mem_filter]
    exact ⟨ho, by simpa using hne⟩
  · intro o ho
    simp only [List.mem_filter] at ho
    exact ⟨ho.1, by simpa using ho.2⟩
  · exact List.filter_sublist _
  · rw [OrderManager.get_customer_orders, List.filter_eq_nil_iff]
    intro o ho
    simp only [List.mem_filter] at ho
    simpa using ho.2

/-- Witness for C6 at a concrete state: customer 1 has two orders; deleting
it removes one customer and exactly two orders. -/
theorem C6_witness :
    (CustomerManagementSystem.delete_customer 1
      { customers := [⟨1, "A", "", "", "2024-01-01", "", 0, PyFloat.finite 0⟩,
                      ⟨2, "B", "", "", "2024-01-02", "", 0, PyFloat.finite 0⟩],
        orders := [⟨"ORD001", 1, "A", "2024-02-01", "", "", "", 1, PyFloat.finite 0,
            PyFloat.finite 0, PyFloat.finite 0, PyFloat.finite 0, "paid", "", ""⟩,
          ⟨"ORD002", 1, "A", "2024-02-02", "", "", "", 1, PyFloat.finite 0,
            PyFloat.finite 0, PyFloat.finite 0, PyFloat.finite 0, "paid", "", ""⟩,
          ⟨"ORD003", 2, "B", "2024-02-03", "", "", "", 1, PyFloat.finite 0,
            PyFloat.finite 0, PyFloat.finite 0, PyFloat.finite 0, "paid", "", ""⟩],
        next_customer_id := 3, next_order_id := 4 }).customers.length + 1 = 2
    ∧ (CustomerManagementSystem.delete_customer 1
      { customers := [⟨1, "A", "", "", "2024-01-01", "", 0, PyFloat.finite 0⟩,
                      ⟨2, "B", "", "", "2024-01-02", "", 0, PyFloat.finite 0⟩],
        orders := [⟨"ORD001", 1, "A", "2024-02-01", "", "", "", 1, PyFloat.finite 0,
            PyFloat.finite 0, PyFloat.finite 0, PyFloat.finite 0, "paid", "", ""⟩,
          ⟨"ORD002", 1, "A", "2024-02-02", "", "", "", 1, PyFloat.finite 0,
            PyFloat.finite 0, PyFloat.finite 0, PyFloat.finite 0, "paid", "", ""⟩,
          ⟨"ORD003", 2, "B", "2024-02-03", "", "", "", 1, PyFloat.finite 0,
            PyFloat.finite 0, PyFloat.finite 0, PyFloat.finite 0, "paid", "", ""⟩],
        next_customer_id := 3, next_order_id := 4 }).orders.length
      + (OrderManager.get_customer_orders 1
          [⟨"ORD001", 1, "A", "2024-02-01", "", "", "", 1, PyFloat.finite 0,
            PyFloat.finite 0, PyFloat.finite 0, PyFloat.finite 0, "paid", "", ""⟩,
          ⟨"ORD002", 1, "A", "2024-02-02", "", "", "", 1, PyFloat.finite 0,
            PyFloat.finite 0, PyFloat.finite 0, PyFloat.finite 0, "paid", "", ""⟩,
          ⟨"ORD003", 2, "B", "2024-02-03", "", "", "", 1, PyFloat.finite 0,
            PyFloat.finite 0, PyFloat.finite 0, PyFloat.finite 0, "paid", "", ""⟩]).length = 3 := by
  have h := C6_delete_cascade
    { customers := [⟨1, "A", "", "", "2024-01-01", "", 0, PyFloat.finite 0⟩,
                    ⟨2, "B", "", "", "2024-01-02", "", 0, PyFloat.finite 0⟩],
      orders := [⟨"ORD001", 1, "A", "2024-02-01", "", "", "", 1, PyFloat.finite 0,
          PyFloat.finite 0, PyFloat.finite 0, PyFloat.finite 0, "paid", "", ""⟩,
        ⟨"ORD002", 1, "A", "2024-02-02", "", "", "", 1, PyFloat.finite 0,
          PyFloat.finite 0, PyFloat.finite 0, PyFloat.finite 0, "paid", "", ""⟩,
        ⟨"ORD003", 2, "B", "2024-02-03", "", "", "", 1, PyFloat.finite 0,
          PyFloat.finite 0, PyFloat.finite 0, PyFloat.finite 0, "paid", "", ""⟩],
      next_customer_id := 3, next_order_id := 4 } 1
    ⟨1, "A", "", "", "2024-01-01", "", 0, PyFloat.finite 0⟩
    (by decide) (by decide) rfl
  exact ⟨h.1, h.2.2.2.2.1⟩

/-- When every order of a list has a nonempty date, collecting the present
dates is just mapping the date field. -/
theorem filterMap_dates (l : List Order) (h : ∀ o ∈ l, o.date ≠ "") :
    l.filterMap (fun o => if o.date ≠ "" then some o.date else Option.none)
      = l.map (fun o => o.date) := by
  induction l with
  | nil => rfl
  | cons o t ih =>
    rw [List.filterMap_cons, List.map_cons]
    rw [if_pos (h o (List.mem_cons_self o t))]
    rw [ih (fun x hx => h x (List.mem_cons_of_mem o hx))]

/-- C7: order statistics for a customer with no matching orders are all
zero with an absent most-recent date (no division by zero occurs — the
embedded function is total); with at least one order whose dates are all
present, the average equals the total divided by the count and the most
recent date is the maximum of the order date strings. -/
theorem C7_statistics (customer_id : Nat) (orders : List Order) :
    (OrderManager.get_customer_orders customer_id orders = [] →
      OrderManager.get_customer_order_statistics customer_id orders
        = { total_orders := 0, total_amount := PyFloat.finite 0,
            average_order := PyFloat.finite 0, last_order := Option.none })
    ∧ (OrderManager.get_customer_orders customer_id orders ≠ [] →
      (∀ o ∈ OrderManager.get_customer_orders customer_id orders, o.date ≠ "") →
      (OrderManager.get_customer_order_statistics customer_id orders).average_order
        = PyFloat.div
            (OrderManager.get_customer_order_statistics customer_id orders).total_amount
            (PyFloat.finite
              ((OrderManager.get_customer_order_statistics customer_id orders).total_orders : ℚ))
      ∧ (OrderManager.get_customer_order_statistics customer_id orders).last_order
        = ((OrderManager.get_customer_orders customer_id orders).map
            (fun o => o.date)).max?) := by
  constructor
  · intro h
    rw [OrderManager.get_customer_order_statistics]
    rw [h]
    rfl
  · intro h hdates
    have hne : (OrderManager.get_customer_orders customer_id orders).isEmpty = false := by
      simpa [List.isEmpty_iff] using h
    rw [OrderManager.get_customer_order_statistics, hne]
    simp only [Bool.false_eq_true, if_false]
    exact ⟨trivial, by rw [filterMap_dates _ hdates]⟩

/-- Witness for C7: a two-order customer gets average = total/2 and the
later date; a customer with no orders gets the all-zero statistics. -/
theorem C7_witness :
    (OrderManager.get_customer_order_statistics 1
      [⟨"O1", 1, "A", "2024-02-01", "", "", "", 1, PyFloat.finite 0, PyFloat.finite 0,
        PyFloat.finite 0, PyFloat.finite 10, "paid", "", ""⟩,
       ⟨"O2", 1, "A", "2024-03-01", "", "", "", 1, PyFloat.finite 0, PyFloat.finite 0,
        PyFloat.finite 0, PyFloat.finite 30, "paid", "", ""⟩]).average_order
      = PyFloat.div
          (OrderManager.get_customer_order_statistics 1
            [⟨"O1", 1, "A", "2024-02-01", "", "", "", 1, PyFloat.finite 0, PyFloat.finite 0,
              PyFloat.finite 0, PyFloat.finite 10, "paid", "", ""⟩,
             ⟨"O2", 1, "A", "2024-03-01", "", "", "", 1, PyFloat.finite 0, PyFloat.finite 0,
              PyFloat.finite 0, PyFloat.finite 30, "paid", "", ""⟩]).total_amount
          (PyFloat.finite
            ((OrderManager.get_customer_order_statistics 1
              [⟨"O1", 1, "A", "2024-02-01", "", "", "", 1, PyFloat.finite 0, PyFloat.finite 0,
                PyFloat.finite 0, PyFloat.finite 10, "paid", "", ""⟩,
               ⟨"O2", 1, "A", "2024-03-01", "", "", "", 1, PyFloat.finite 0, PyFloat.finite 0,
                PyFloat.finite 0, PyFloat.finite 30, "paid", "", ""⟩]).total_orders : ℚ))
    ∧ OrderManager.get_customer_order_statistics 7
        [⟨"O1", 1, "A", "2024-02-01", "", "", "", 1, PyFloat.finite 0, PyFloat.finite 0,
          PyFloat.finite 0, PyFloat.finite 10, "paid", "", ""⟩]
        = { total_orders := 0, total_amount := PyFloat.finite 0,
            average_order := PyFloat.finite 0, last_order := Option.none } := by
  refine ⟨((C7_statistics 1 _).2 (by decide) (by decide)).1, (C7_statistics 7 _).1 (by decide)⟩

/-- Stability of ordered insertion for the activity ranking relation: the
elements with a given order count are preserved in order, with the inserted
element in front of later equals only when its count matches. -/
theorem filter_orderedInsert (n : Nat) (x : Customer × Nat)
    (l : List (Customer × Nat)) :
    (List.orderedInsert ReportGenerator.actRel x l).filter (fun p => p.2 == n)
      = if x.2 = n then x :: l.filter (fun p => p.2 == n)
        else l.filter (fun p => p.2 == n) := by
  induction l with
  | nil =>
    by_cases hx : x.2 = n <;> simp [List.orderedInsert, List.filter_cons, hx]
  | cons y ys ih =>
    by_cases hr : ReportGenerator.actRel x y
    · rw [List.orderedInsert, if_pos hr]
      by_cases hx : x.2 = n <;> by_cases hy : y.2 = n <;>
        simp [List.filter_cons, hx, hy]
    · rw [List.orderedInsert, if_neg hr]
      have hlt : x.2 < y.2 := by
        simpa [ReportGenerator.actRel, Nat.not_le] using hr
      by_cases hx : x.2 = n
      · have hy : y.2 ≠ n := by omega
        simp [List.filter_cons, ih, hx, hy]
      · by_cases hy : y.2 = n <;> simp [List.filter_cons, ih, hx, hy]

/-- Stability of the descending insertion sort used for the activity
ranking: among pairs with equal order count the original relative order is
preserved. -/
theorem filter_insertionSort (n : Nat) (l : List (Customer × Nat)) :
    (List.insertionSort ReportGenerator.actRel l).filter (fun p => p.2 == n)
      = l.filter (fun p => p.2 == n) := by
  induction l with
  | nil => rfl
  | cons x t ih =>
    rw [List.insertionSort, filter_orderedInsert, ih]
    by_cases hx : x.2 = n <;> simp [List.filter_cons, hx]

/-- C8: the customer activity ranking lists only customers with at least
one order with their true order counts, is sorted descending by count, keeps
ties in the original directory order (stability of the sort), and holds at
most ten entries; with order counts [5, 5, 2] the two five-order customers
are listed first, in their original relative order. -/
theorem C8_customer_activity (customers : List Customer) (orders : List Order) :
    ReportGenerator.activityRanking customers orders
      = (List.insertionSort ReportGenerator.actRel
          (ReportGenerator.customersWithOrders customers orders)).take 10
    ∧ (ReportGenerator.activityRanking customers orders).length ≤ 10
    ∧ List.Sorted ReportGenerator.actRel
        (ReportGenerator.activityRanking customers orders)
    ∧ (∀ p ∈ ReportGenerator.activityRanking customers orders,
        p.1 ∈ customers
        ∧ p.2 = (OrderManager.get_customer_orders p.1.id orders).length
        ∧ 1 ≤ p.2)
    ∧ (∀ n : Nat,
        (List.insertionSort ReportGenerator.actRel
          (ReportGenerator.customersWithOrders customers orders)).filter
            (fun p => p.2 == n)
          = (ReportGenerator.customersWithOrders customers orders).filter
              (fun p => p.2 == n))
    ∧ ReportGenerator.activityRanking
        [⟨1, "A", "", "", "", "", 0, PyFloat.finite 0⟩,
         ⟨2, "B", "", "", "", "", 0, PyFloat.finite 0⟩,
         ⟨3, "C", "", "", "", "", 0, PyFloat.finite 0⟩]
        ((List.replicate 5 (⟨"", 1, "", "", "", "", "", 1, PyFloat.finite 0,
            PyFloat.finite 0, PyFloat.finite 0, PyFloat.finite 0, "", "", ""⟩ : Order)) ++
         (List.replicate 5 (⟨"", 2, "", "", "", "", "", 1, PyFloat.finite 0,
            PyFloat.finite 0, PyFloat.finite 0, PyFloat.finite 0, "", "", ""⟩ : Order)) ++
         (List.replicate 2 (⟨"", 3, "", "", "", "", "", 1, PyFloat.finite 0,
            PyFloat.finite 0, PyFloat.finite 0, PyFloat.finite 0, "", "", ""⟩ : Order)))
        = [(⟨1, "A", "", "", "", "", 0, PyFloat.finite 0⟩, 5),
           (⟨2, "B", "", "", "", "", 0, PyFloat.finite 0⟩, 5),
           (⟨3, "C", "", "", "", "", 0, PyFloat.finite 0⟩, 2)] := by
  refine ⟨rfl, ?_, ?_, ?_, fun n => filter_insertionSort n _, by decide⟩
  · rw [ReportGenerator.activityRanking]
    simp [List.length_take]
  · have hs := List.sorted_insertionSort (r := ReportGenerator.actRel)
      (ReportGenerator.customersWithOrders customers orders)
    exact hs.sublist (List.take_sublist _ _)
  · intro p hp
    have hp1 : p ∈ List.insertionSort ReportGenerator.actRel
        (ReportGenerator.customersWithOrders customers orders) :=
      List.mem_of_mem_take hp
    have hp2 : p ∈ ReportGenerator.customersWithOrders customers orders :=
      (List.perm_insertionSort ReportGenerator.actRel _).mem_iff.mp hp1
    rw [ReportGenerator.customersWithOrders] at hp2
    obtain ⟨c, hc, heq⟩ := List.mem_filterMap.mp hp2
    by_cases h : (OrderManager.get_customer_orders c.id orders).isEmpty
    · simp [h] at heq
    · simp only [h, Bool.false_eq_true, if_false, Option.some.injEq] at heq
      subst heq
      refine ⟨hc, rfl, ?_⟩
      have hne : OrderManager.get_customer_orders c.id orders ≠ [] := by
        simpa [List.isEmpty_iff] using h
      have := List.length_pos.mpr hne
      omega

/-- Witness for C8: in the [5, 5, 2] example the first listed entry is a
customer of the original directory with five orders. -/
theorem C8_witness :
    ((⟨1, "A", "", "", "", "", 0, PyFloat.finite 0⟩ : Customer)
        ∈ [(⟨1, "A", "", "", "", "", 0, PyFloat.finite 0⟩ : Customer),
           ⟨2, "B", "", "", "", "", 0, PyFloat.finite 0⟩,
           ⟨3, "C", "", "", "", "", 0, PyFloat.finite 0⟩])
    ∧ 5 = (OrderManager.get_customer_orders 1
        ((List.replicate 5 (⟨"", 1, "", "", "", "", "", 1, PyFloat.finite 0,
            PyFloat.finite 0, PyFloat.finite 0, PyFloat.finite 0, "", "", ""⟩ : Order)) ++
         (List.replicate 5 (⟨"", 2, "", "", "", "", "", 1, PyFloat.finite 0,
            PyFloat.finite 0, PyFloat.finite 0, PyFloat.finite 0, "", "", ""⟩ : Order)) ++
         (List.replicate 2 (⟨"", 3, "", "", "", "", "", 1, PyFloat.finite 0,
            PyFloat.finite 0, PyFloat.finite 0, PyFloat.finite 0, "", "", ""⟩ : Order)))).length
    ∧ 1 ≤ 5 := by
  have h := (C8_customer_activity
    [⟨1, "A", "", "", "", "", 0, PyFloat.finite 0⟩,
     ⟨2, "B", "", "", "", "", 0, PyFloat.finite 0⟩,
     ⟨3, "C", "", "", "", "", 0, PyFloat.finite 0⟩]
    ((List.replicate 5 (⟨"", 1, "", "", "", "", "", 1, PyFloat.finite 0,
        PyFloat.finite 0, PyFloat.finite 0, PyFloat.finite 0, "", "", ""⟩ : Order)) ++
     (List.replicate 5 (⟨"", 2, "", "", "", "", "", 1, PyFloat.finite 0,
        PyFloat.finite 0, PyFloat.finite 0, PyFloat.finite 0, "", "", ""⟩ : Order)) ++
     (List.replicate 2 (⟨"", 3, "", "", "", "", "", 1, PyFloat.finite 0,
        PyFloat.finite 0, PyFloat.finite 0, PyFloat.finite 0, "", "", ""⟩ : Order)))).2.2.2.1
    (⟨1, "A", "", "", "", "", 0, PyFloat.finite 0⟩, 5) (by decide)
  exact h
